import Mathlib

/-!
# Verification of the rec-conv-transcriptor core

A shallow embedding of the transcription pipeline
(`src/transcriptor/pipeline.py`), the folder-watcher lifecycle controller
(`src/transcriptor/watcher/folder_watcher.py`) and the query/role-swap
operations (`src/transcriptor/api/query.py`), together with proofs about
the behaviour the specification describes.

Embedding conventions:
* Python `float` values (times, durations, scores) are embedded as `ℚ`.
* Python `dict` is embedded as an insertion-ordered association list
  (`PyDict`), with Python's semantics: updating an existing key keeps its
  position, a new key is appended; iteration follows insertion order.
* Python `re.search`/`re.findall` over the fixed phrase-pattern lists are
  embedded by a small matcher (`matchLen`) covering exactly the regex
  constructs those patterns use (literals, `\w`, `\w*`, `\d+`, `\s*`,
  `[...]?`, `^`, `$`, `\b`), with greedy backtracking order as in Python.
* Python `str.lower` is embedded for the alphabet actually reachable here
  (ASCII plus the Polish letters appearing in the pattern lists).
* The SQLAlchemy-backed state is embedded as a record of row lists (`DB`);
  a session's uncommitted writes that get rolled back on failure are never
  applied to the state, mirroring commit/rollback placement in the source.
* Exceptions of fallible steps are embedded as `Except String` values; the
  collaborators (whisper, pyannote) are parameters of the functions that
  invoke them.
-/

namespace Transcriptor

/-! ## Python string helpers -/

/-- Lower-case mapping for the Polish letters occurring in the source's
pattern lists (embedding of the relevant part of `str.lower`). -/
def polishLowerMap : List (Char × Char) :=
  [('Ą', 'ą'), ('Ć', 'ć'), ('Ę', 'ę'), ('Ł', 'ł'), ('Ń', 'ń'),
   ('Ó', 'ó'), ('Ś', 'ś'), ('Ź', 'ź'), ('Ż', 'ż')]

def pyLowerChar (c : Char) : Char :=
  match polishLowerMap.find? (fun p => p.1 = c) with
  | some p => p.2
  | none => c.toLower

/-- Embedding of Python `str.lower()`. -/
def pyLower (s : String) : String := String.mk (s.data.map pyLowerChar)

/-- Embedding of Python `str.capitalize()`: first character upper-cased,
the rest lower-cased. -/
def pyCapitalize (s : String) : String :=
  match s.data with
  | [] => ""
  | c :: rest => String.mk (c.toUpper :: rest.map pyLowerChar)

/-- Embedding of `len(t.split())`: number of maximal non-whitespace runs. -/
def pyWordCount (s : String) : ℕ :=
  ((s.split Char.isWhitespace).filter (fun w => w ≠ "")).length

/-! ## Stable sorting and Python max/min (insertion-order tie behaviour) -/

/-- Insert into an ascending-sorted list, after all elements of equal key
(the placement Python's stable `sort`/`sorted` gives). -/
def pyInsertAsc (key : α → ℚ) (x : α) : List α → List α
  | [] => [x]
  | y :: ys => if key x < key y then x :: y :: ys else y :: pyInsertAsc key x ys

/-- Stable ascending sort (embedding of `sorted(l, key=...)` / `list.sort`). -/
def pySortAsc (key : α → ℚ) (l : List α) : List α :=
  l.foldl (fun acc x => pyInsertAsc key x acc) []

/-- Insert into a descending-sorted list, after all elements of equal key. -/
def pyInsertDesc (key : α → ℚ) (x : α) : List α → List α
  | [] => [x]
  | y :: ys => if key y < key x then x :: y :: ys else y :: pyInsertDesc key x ys

/-- Stable descending sort (embedding of `sorted(l, key=..., reverse=True)`). -/
def pySortDesc (key : α → ℚ) (l : List α) : List α :=
  l.foldl (fun acc x => pyInsertDesc key x acc) []

def pyMaxKeyAux (k : String) (v : ℚ) : List (String × ℚ) → String
  | [] => k
  | (k2, v2) :: rest =>
    if v < v2 then pyMaxKeyAux k2 v2 rest else pyMaxKeyAux k v rest

/-- Embedding of Python `max(d, key=d.get)` over an insertion-ordered dict:
the first key attaining the maximal value (ties keep the earlier key). -/
def pyMaxKey : List (String × ℚ) → Option String
  | [] => none
  | (k, v) :: rest => some (pyMaxKeyAux k v rest)

/-- Embedding of Python `min(...)` over a nonempty list of floats. -/
def pyMinQ : List ℚ → ℚ
  | [] => 0
  | x :: xs => xs.foldl min x

/-! ## Insertion-ordered dictionary (Python `dict`) -/

structure PyDict (α β : Type) where
  entries : List (α × β)
deriving DecidableEq

def PyDict.get? [DecidableEq α] (d : PyDict α β) (k : α) : Option β :=
  (d.entries.find? (fun e => e.1 = k)).map (fun e => e.2)

def PyDict.getD [DecidableEq α] (d : PyDict α β) (k : α) (v₀ : β) : β :=
  (d.get? k).getD v₀

/-- `d[k] = v`: update in place if the key exists, else append. -/
def PyDict.set [DecidableEq α] (d : PyDict α β) (k : α) (v : β) : PyDict α β :=
  if d.entries.any (fun e => e.1 = k) then
    ⟨d.entries.map (fun e => if e.1 = k then (k, v) else e)⟩
  else ⟨d.entries ++ [(k, v)]⟩

def PyDict.keys (d : PyDict α β) : List α := d.entries.map (fun e => e.1)

def PyDict.values (d : PyDict α β) : List β := d.entries.map (fun e => e.2)

/-! ## A small regex matcher

Covers exactly the constructs in `_AGENT_PHRASES` and
`_CUSTOMER_SHORT_RESPONSES`; greedy quantifiers with Python's backtracking
order, no `re.MULTILINE` (so `^` is begin-of-string, `$` is end-of-string
or just before a terminal newline). -/

/-- The Polish letters (both cases) reachable in this code base; used for
the Unicode-aware `\w` of Python `re`. -/
def polishLetters : List Char :=
  ['ą', 'ć', 'ę', 'ł', 'ń', 'ó', 'ś', 'ź', 'ż',
   'Ą', 'Ć', 'Ę', 'Ł', 'Ń', 'Ó', 'Ś', 'Ź', 'Ż']

def isWordChar (c : Char) : Bool :=
  c.isAlphanum || c = '_' || polishLetters.contains c

def isDigitChar (c : Char) : Bool := c.isDigit

def isSpaceChar (c : Char) : Bool := c.isWhitespace

/-- One token of a compiled pattern. -/
inductive RTok where
  | lit (c : Char)
  | wordChar
  | wordStar
  | digitPlus
  | spaceStar
  | optCls (cs : List Char)
  | bos
  | eos
  | wordBoundary
deriving DecidableEq

/-- All ways a starred class can consume a prefix of `s`, longest first
(so that `findSome?` over them realises greedy backtracking); each state is
(consumed count, new previous char, remaining input). -/
def greedyStates (p : Char → Bool) : Option Char → List Char →
    List (ℕ × Option Char × List Char)
  | prev, [] => [(0, prev, [])]
  | prev, c :: rest =>
    (if p c then
      (greedyStates p (some c) rest).map (fun st => (st.1 + 1, st.2))
     else []) ++ [(0, prev, c :: rest)]

def isWordOpt : Option Char → Bool
  | none => false
  | some c => isWordChar c

/-- Fuelled matcher; each recursive call drops one token, so any fuel
above the token count behaves identically (structural recursion on the
fuel keeps the function kernel-reducible for `decide`). -/
def matchLenF : ℕ → List RTok → Option Char → List Char → Option ℕ
  | 0, _, _, _ => none
  | _ + 1, [], _, _ => some 0
  | fuel + 1, RTok.lit c :: ts, _, d :: rest =>
    if d = c then (matchLenF fuel ts (some d) rest).map (fun n => n + 1) else none
  | _ + 1, RTok.lit _ :: _, _, [] => none
  | fuel + 1, RTok.wordChar :: ts, _, d :: rest =>
    if isWordChar d then (matchLenF fuel ts (some d) rest).map (fun n => n + 1)
    else none
  | _ + 1, RTok.wordChar :: _, _, [] => none
  | fuel + 1, RTok.wordStar :: ts, prev, s =>
    (greedyStates isWordChar prev s).findSome?
      (fun st => (matchLenF fuel ts st.2.1 st.2.2).map (fun n => n + st.1))
  | fuel + 1, RTok.spaceStar :: ts, prev, s =>
    (greedyStates isSpaceChar prev s).findSome?
      (fun st => (matchLenF fuel ts st.2.1 st.2.2).map (fun n => n + st.1))
  | fuel + 1, RTok.digitPlus :: ts, _, d :: rest =>
    if isDigitChar d then
      (greedyStates isDigitChar (some d) rest).findSome?
        (fun st => (matchLenF fuel ts st.2.1 st.2.2).map (fun n => n + st.1 + 1))
    else none
  | _ + 1, RTok.digitPlus :: _, _, [] => none
  | fuel + 1, RTok.optCls cs :: ts, prev, s =>
    (match s with
     | d :: rest =>
       if cs.contains d then (matchLenF fuel ts (some d) rest).map (fun n => n + 1)
       else none
     | [] => none).orElse
      (fun _ => matchLenF fuel ts prev s)
  | fuel + 1, RTok.bos :: ts, prev, s =>
    if prev = none then matchLenF fuel ts prev s else none
  | fuel + 1, RTok.eos :: ts, prev, s =>
    if s = [] ∨ s = ['\n'] then matchLenF fuel ts prev s else none
  | fuel + 1, RTok.wordBoundary :: ts, prev, s =>
    if isWordOpt prev ≠ (match s with | [] => false | d :: _ => isWordChar d)
    then matchLenF fuel ts prev s else none

/-- Length (in characters) of the match of `toks` starting exactly at the
current position, following Python's greedy backtracking; `prev` is the
character just before the current position (`none` at begin-of-string). -/
def matchLen (toks : List RTok) (prev : Option Char) (s : List Char) : Option ℕ :=
  matchLenF (toks.length + 1) toks prev s

/-- `re.search` scanning: try a match at every position, left to right. -/
def searchAux (toks : List RTok) : Option Char → List Char → Bool
  | prev, [] => (matchLen toks prev []).isSome
  | prev, c :: rest =>
    (matchLen toks prev (c :: rest)).isSome || searchAux toks (some c) rest

/-- Embedding of `re.search(p, s) is not None`. -/
def pySearch (toks : List RTok) (s : String) : Bool := searchAux toks none s.data

/-- Fuelled scanner for `re.findall` counting; every recursive call works
on a strictly shorter remainder, so any fuel above the input length
behaves identically (structural on the fuel for kernel reducibility). -/
def findallFromF (toks : List RTok) : ℕ → Option Char → List Char → ℕ
  | _, prev, [] => if (matchLen toks prev []).isSome then 1 else 0
  | 0, _, _ => 0
  | fuel + 1, prev, c :: rest =>
    match matchLen toks prev (c :: rest) with
    | none => findallFromF toks fuel (some c) rest
    | some 0 => 1 + findallFromF toks fuel (some c) rest
    | some (m + 1) =>
      1 + findallFromF toks fuel (((c :: rest).take (m + 1)).getLast?)
            ((c :: rest).drop (m + 1))

/-- Count of non-overlapping matches scanning left to right (the length of
`re.findall(p, s)`); an empty match advances one character. -/
def findallFrom (toks : List RTok) (prev : Option Char) (s : List Char) : ℕ :=
  findallFromF toks s.length prev s

/-- Embedding of `len(re.findall(p, s))`. -/
def pyFindallCount (toks : List RTok) (s : String) : ℕ :=
  findallFrom toks none s.data

/-- A run of literal characters. -/
def lits (s : String) : List RTok := s.data.map RTok.lit

/-! ## The phrase-pattern lists (`pipeline.py`, `_AGENT_PHRASES` and
`_CUSTOMER_SHORT_RESPONSES`), compiled to token lists. -/

def AGENT_PHRASES : List (List RTok) :=
  [ -- Greetings & intro
    lits "dzień dobry",
    lits "dzwonię z",
    lits "dzwonię ze",
    lits "dzwonię w sprawie",
    lits "nazywam się",
    lits "mam na imię",
    -- Sales language
    lits "czy mogę zaproponować",
    lits "mogę zaproponować",
    lits "chciał" ++ [RTok.wordStar] ++ lits "bym zaproponować",
    lits "w promocyjnej cenie",
    lits "w promocji",
    lits "promocja",
    lits "rabat",
    lits "gratis",
    lits "w cenie",
    lits "kuracja",
    lits "bestseller",
    lits "opakowanie",
    lits "opakowań",
    -- Prices & numbers
    [RTok.digitPlus, RTok.spaceStar] ++ lits "zł",
    [RTok.digitPlus, RTok.spaceStar] ++ lits "złotych",
    lits "kosztuje",
    lits "oszczędność",
    lits "za opakowanie",
    lits "za pobraniem",
    lits "płatność",
    lits "metoda płatności",
    -- Order & delivery
    lits "dane dostawy",
    lits "adres dostawy",
    lits "numer zamówienia",
    lits "potwierdzam zamówienie",
    lits "w sprawie zamówienia",
    lits "wysyłam",
    lits "wysyłka",
    lits "kurier",
    lits "paczka",
    lits "przesyłka",
    -- Formal phrases
    lits "potrzebuję potwierdzenia",
    lits "muszę potwierdzić",
    lits "czy wszystko się zgadza",
    lits "czy wyraża pan" ++ [RTok.wordStar] ++ lits " zgodę",
    lits "czy wyraża pani zgodę",
    lits "proszę pan" ++ [RTok.wordChar],
    lits "regulamin",
    lits "reklamacja",
    lits "gwarancja",
    -- Closing
    lits "miłego dnia",
    lits "dziękuję za rozmowę",
    lits "do widzenia",
    lits "życzę miłego" ]

def CUSTOMER_SHORT_RESPONSES : List (List RTok) :=
  [ [RTok.bos] ++ lits "tak" ++ [RTok.optCls ['.', ',', '!'], RTok.spaceStar, RTok.eos],
    [RTok.bos] ++ lits "nie" ++ [RTok.optCls ['.', ',', '!'], RTok.spaceStar, RTok.eos],
    [RTok.bos] ++ lits "no" ++ [RTok.spaceStar, RTok.eos],
    [RTok.bos] ++ lits "no tak" ++ [RTok.spaceStar, RTok.eos],
    [RTok.bos] ++ lits "no nie" ++ [RTok.spaceStar, RTok.eos],
    [RTok.bos] ++ lits "no dobrze",
    [RTok.bos] ++ lits "no niech będzie",
    [RTok.bos] ++ lits "niech będzie",
    [RTok.bos] ++ lits "dokładnie",
    [RTok.bos] ++ lits "dobrze",
    [RTok.bos] ++ lits "ok" ++ [RTok.wordBoundary],
    [RTok.bos] ++ lits "okej",
    [RTok.bos] ++ lits "trudno",
    [RTok.bos] ++ lits "halo",
    [RTok.bos] ++ lits "to znaczy",
    [RTok.bos] ++ lits "mhm",
    [RTok.bos] ++ lits "aha",
    [RTok.bos] ++ lits "uhm",
    [RTok.bos] ++ lits "no właśnie",
    [RTok.bos] ++ lits "zgadza się",
    [RTok.bos] ++ lits "jasne",
    [RTok.bos] ++ lits "rozumiem",
    [RTok.bos] ++ lits "a ile",
    [RTok.bos] ++ lits "no to",
    [RTok.bos] ++ lits "yyyy" ]

/-! ## Pipeline data classes (`pipeline.py`, `whisper_service.py`,
`pyannote_service.py`).  Python's `end` field is named `endTime` (`end` is
a Lean keyword). -/

inductive SpeakerLabel where
  | agent
  | customer
deriving DecidableEq

def SpeakerLabel.toStr : SpeakerLabel → String
  | .agent => "agent"
  | .customer => "customer"

structure WordTimestamp where
  word : String
  start : ℚ
  endTime : ℚ
  probability : ℚ
deriving DecidableEq

structure TranscriptionSegment where
  text : String
  start : ℚ
  endTime : ℚ
  words : List WordTimestamp := []
  avg_logprob : ℚ := 0
  no_speech_prob : ℚ := 0
deriving DecidableEq

structure TranscriptionResult where
  segments : List TranscriptionSegment
  language : String
  language_probability : ℚ
  duration : ℚ
deriving DecidableEq

structure DiarizationSegment where
  speaker : String
  start : ℚ
  endTime : ℚ
deriving DecidableEq

structure DiarizationResult where
  segments : List DiarizationSegment
  num_speakers : ℕ
deriving DecidableEq

structure AlignedSegment where
  speaker : SpeakerLabel
  text : String
  start : ℚ
  endTime : ℚ
  confidence : Option ℚ := none
deriving DecidableEq

inductive ChannelMode where
  | stereo
  | mono
deriving DecidableEq

structure PipelineResult where
  segments : List AlignedSegment
  full_text : String
  language : String
  duration : ℚ
  num_speakers : ℕ
  channel_mode : ChannelMode
  raw_transcription : Option TranscriptionResult := none
  raw_diarization : Option DiarizationResult := none
deriving DecidableEq

/-! ## Alignment logic (`pipeline.py`) -/

/-- `_overlap`: duration of overlap between two time intervals. -/
def overlapQ (a_start a_end b_start b_end : ℚ) : ℚ :=
  max 0 (min a_end b_end - max a_start b_start)

/-- The `speaker_overlap` accumulation loop shared by `_align_segments`
and `_label_speakers_smart`: per speaker tag, the summed positive overlaps
with one transcription segment, in first-overlap insertion order. -/
def speakerOverlapDict (tseg : TranscriptionSegment)
    (dsegs : List DiarizationSegment) : PyDict String ℚ :=
  dsegs.foldl
    (fun d dseg =>
      let ov := overlapQ tseg.start tseg.endTime dseg.start dseg.endTime
      if 0 < ov then d.set dseg.speaker (d.getD dseg.speaker 0 + ov) else d)
    ⟨[]⟩

/-- `max(speaker_overlap, key=speaker_overlap.get)` when the dict is
nonempty, `none` when it is empty. -/
def bestOverlapSpeaker (tseg : TranscriptionSegment)
    (dsegs : List DiarizationSegment) : Option String :=
  pyMaxKey (speakerOverlapDict tseg dsegs).entries

/-- `_avg_word_confidence`. -/
def avgWordConfidence (seg : TranscriptionSegment) : Option ℚ :=
  if seg.words.isEmpty then none
  else some ((seg.words.map (fun w => w.probability)).sum / seg.words.length)

/-- `_align_segments`: one `AlignedSegment` per transcription segment, in
input order; best-overlap speaker looked up in `speaker_map` with default
`customer`; fallback `agent` when nothing overlaps. -/
def alignSegments (transcription : TranscriptionResult)
    (diarization : DiarizationResult)
    (speaker_map : PyDict String SpeakerLabel) : List AlignedSegment :=
  transcription.segments.map (fun tseg =>
    let label : SpeakerLabel :=
      match bestOverlapSpeaker tseg diarization.segments with
      | some raw => (speaker_map.get? raw).getD SpeakerLabel.customer
      | none => SpeakerLabel.agent
    { speaker := label, text := tseg.text, start := tseg.start,
      endTime := tseg.endTime, confidence := avgWordConfidence tseg })

/-! ## Speaker labelling heuristic (`_label_speakers_smart`) -/

/-- `_count_phrase_matches`: how many patterns find at least one match in
the lower-cased text (`re.search` per pattern, each pattern counted at
most once). -/
def countPhraseMatches (text : String) (patterns : List (List RTok)) : ℕ :=
  patterns.countP (fun p => pySearch p (pyLower text))

/-- `_count_distinct_phrase_matches`: the source's body is identical to
`_count_phrase_matches`. -/
def countDistinctPhraseMatches (text : String)
    (patterns : List (List RTok)) : ℕ :=
  patterns.countP (fun p => pySearch p (pyLower text))

/-- The `speaking_time` dict: per speaker, summed segment durations, keys
in first-appearance order. -/
def speakingTimeDict (dsegs : List DiarizationSegment) : PyDict String ℚ :=
  dsegs.foldl
    (fun d seg => d.set seg.speaker (d.getD seg.speaker 0 + (seg.endTime - seg.start)))
    ⟨[]⟩

/-- The `segment_count` dict. -/
def segmentCountDict (dsegs : List DiarizationSegment) : PyDict String ℕ :=
  dsegs.foldl (fun d seg => d.set seg.speaker (d.getD seg.speaker 0 + 1)) ⟨[]⟩

/-- The `first_appearance` dict: the start of each speaker's first segment
in list order. -/
def firstAppearanceDict (dsegs : List DiarizationSegment) : PyDict String ℚ :=
  dsegs.foldl
    (fun d seg => if (d.get? seg.speaker).isNone then d.set seg.speaker seg.start else d)
    ⟨[]⟩

/-- `sorted(speaking_time, key=speaking_time.get, reverse=True)[:2]`. -/
def topSpeakers (dsegs : List DiarizationSegment) : List String :=
  (pySortDesc (fun sp => (speakingTimeDict dsegs).getD sp 0)
    (speakingTimeDict dsegs).keys).take 2

/-- `speaker_texts[sp]`: the stripped texts of exactly the transcription
segments whose best-overlap speaker is `sp`, in transcription order. -/
def speakerTexts (dsegs : List DiarizationSegment)
    (tsegs : List TranscriptionSegment) (sp : String) : List String :=
  (tsegs.filter (fun t => bestOverlapSpeaker t dsegs = some sp)).map
    (fun t => t.text.trim)

/-- `" ".join(speaker_texts[sp])`. -/
def speakerAllText (dsegs : List DiarizationSegment)
    (tsegs : List TranscriptionSegment) (sp : String) : String :=
  String.intercalate " " (speakerTexts dsegs tsegs sp)

/-- Signal 1 count: `_count_phrase_matches(all_text, _AGENT_PHRASES)`. -/
def agentPhraseCount (dsegs : List DiarizationSegment)
    (tsegs : List TranscriptionSegment) (sp : String) : ℕ :=
  countPhraseMatches (speakerAllText dsegs tsegs sp) AGENT_PHRASES

/-- Signal 2 count: texts matching at least one customer-response pattern. -/
def shortResponseCount (dsegs : List DiarizationSegment)
    (tsegs : List TranscriptionSegment) (sp : String) : ℕ :=
  ((speakerTexts dsegs tsegs sp).filter
    (fun t => 0 < countPhraseMatches t CUSTOMER_SHORT_RESPONSES)).length

/-- Signal 3 count: texts with fewer than 5 words. -/
def shortSegmentCount (dsegs : List DiarizationSegment)
    (tsegs : List TranscriptionSegment) (sp : String) : ℕ :=
  ((speakerTexts dsegs tsegs sp).filter (fun t => pyWordCount t < 5)).length

/-- Signal 4: +2.0 when the speaker holds more than 55% of total time. -/
def timeBonus (dsegs : List DiarizationSegment) (sp : String) : ℚ :=
  let total := (speakingTimeDict dsegs).values.sum
  let pct : ℚ := if 0 < total then (speakingTimeDict dsegs).getD sp 0 / total else 0
  if (0.55 : ℚ) < pct then 2.0 else 0

/-- Signal 5: +1.0 when the average words per attributed segment exceeds 8. -/
def avgWordsBonus (dsegs : List DiarizationSegment)
    (tsegs : List TranscriptionSegment) (sp : String) : ℚ :=
  let texts := speakerTexts dsegs tsegs sp
  if texts.isEmpty then 0
  else if (8 : ℚ) < ((texts.map (fun t => (pyWordCount t : ℚ))).sum / texts.length)
  then 1.0 else 0

/-- Signal 6: +2.0 when at least 3 distinct agent patterns match. -/
def diversityBonus (dsegs : List DiarizationSegment)
    (tsegs : List TranscriptionSegment) (sp : String) : ℚ :=
  if 3 ≤ countDistinctPhraseMatches (speakerAllText dsegs tsegs sp) AGENT_PHRASES
  then 2.0 else 0

/-- Signal 7: +0.5 when the speaker's first appearance equals the minimum
over all first appearances (in the source a `.get` with default infinity,
which can never equal the minimum of actual values). -/
def firstBonus (dsegs : List DiarizationSegment) (sp : String) : ℚ :=
  match (firstAppearanceDict dsegs).get? sp with
  | some v => if v = pyMinQ (firstAppearanceDict dsegs).values then 0.5 else 0
  | none => 0

/-- `scores[sp]` after the scoring loop of `_label_speakers_smart`. -/
def speakerScore (dsegs : List DiarizationSegment)
    (tsegs : List TranscriptionSegment) (sp : String) : ℚ :=
  (agentPhraseCount dsegs tsegs sp : ℚ) * 3.0
    - (shortResponseCount dsegs tsegs sp : ℚ) * 2.0
    - (shortSegmentCount dsegs tsegs sp : ℚ) * 1.5
    + timeBonus dsegs sp
    + avgWordsBonus dsegs tsegs sp
    + diversityBonus dsegs tsegs sp
    + firstBonus dsegs sp

/-- Signals 2-7 of the scoring, separated out so that theorems can speak
about the contribution of signal 1 alone. -/
def otherScoreSignals (dsegs : List DiarizationSegment)
    (tsegs : List TranscriptionSegment) (sp : String) : ℚ :=
  - (shortResponseCount dsegs tsegs sp : ℚ) * 2.0
    - (shortSegmentCount dsegs tsegs sp : ℚ) * 1.5
    + timeBonus dsegs sp
    + avgWordsBonus dsegs tsegs sp
    + diversityBonus dsegs tsegs sp
    + firstBonus dsegs sp

/-- `_label_speakers_smart`: the resulting RoleMap (raw tag → role). -/
def labelSpeakersSmart (diarization : DiarizationResult)
    (transcription : TranscriptionResult) : PyDict String SpeakerLabel :=
  if diarization.segments.isEmpty then ⟨[]⟩
  else
    let dsegs := diarization.segments
    let tsegs := transcription.segments
    match topSpeakers dsegs with
    | [sp] =>
      if agentPhraseCount dsegs tsegs sp = 0 ∧
         ((speakerTexts dsegs tsegs sp).length : ℚ) * 0.5 <
           (shortSegmentCount dsegs tsegs sp : ℚ)
      then ⟨[(sp, SpeakerLabel.customer)]⟩
      else ⟨[(sp, SpeakerLabel.agent)]⟩
    | [a, b] =>
      if speakerScore dsegs tsegs b ≤ speakerScore dsegs tsegs a
      then ⟨[(a, SpeakerLabel.agent), (b, SpeakerLabel.customer)]⟩
      else ⟨[(b, SpeakerLabel.agent), (a, SpeakerLabel.customer)]⟩
    | _ => ⟨[]⟩  -- unreachable: `[:2]` of a nonempty key list has length 1 or 2

/-! ## Stereo pipeline and the public entry point (`pipeline.py`).

The whisper and pyannote collaborators are parameters: `transcribe` maps a
mono channel stream to its transcription; `monoTranscription` and
`monoDiarization` are the collaborator results the mono path would use on
the whole file.  Decoded audio is its list of mono channel streams. -/

structure AudioFile (α : Type) where
  monoStreams : List α
deriving DecidableEq

/-- `audio.channels` of pydub. -/
def AudioFile.channels (a : AudioFile α) : ℕ := a.monoStreams.length

/-- `_split_stereo`: the two channel streams, or `ValueError` when the
channel count differs from 2. -/
def splitStereo (a : AudioFile α) : Except String (α × α) :=
  match a.monoStreams with
  | [c0, c1] => Except.ok (c0, c1)
  | l => Except.error ("Expected stereo audio (2 channels), got " ++ toString l.length)

/-- Channel 0 (left) segments become `agent` segments. -/
def mkAgentSeg (s : TranscriptionSegment) : AlignedSegment :=
  { speaker := SpeakerLabel.agent, text := s.text, start := s.start,
    endTime := s.endTime, confidence := avgWordConfidence s }

/-- Channel 1 (right) segments become `customer` segments. -/
def mkCustomerSeg (s : TranscriptionSegment) : AlignedSegment :=
  { speaker := SpeakerLabel.customer, text := s.text, start := s.start,
    endTime := s.endTime, confidence := avgWordConfidence s }

/-- `_build_full_text`. -/
def buildFullText (segments : List AlignedSegment) : String :=
  String.intercalate "\n"
    (segments.map (fun seg => "[" ++ pyCapitalize seg.speaker.toStr ++ "] " ++ seg.text))

/-- `_run_stereo_pipeline`. -/
def runStereoPipeline (transcribe : α → TranscriptionResult)
    (audio : AudioFile α) : Except String PipelineResult :=
  match splitStereo audio with
  | Except.error e => Except.error e
  | Except.ok (leftCh, rightCh) =>
    let agentResult := transcribe leftCh
    let customerResult := transcribe rightCh
    let segments := pySortAsc (fun s => s.start)
      (agentResult.segments.map mkAgentSeg ++ customerResult.segments.map mkCustomerSeg)
    Except.ok
      { segments := segments, full_text := buildFullText segments,
        language := agentResult.language,
        duration := max agentResult.duration customerResult.duration,
        num_speakers := 2, channel_mode := ChannelMode.stereo }

/-- `_run_mono_pipeline` (diarize → transcribe → label → align). -/
def runMonoPipeline (monoTranscription : TranscriptionResult)
    (monoDiarization : DiarizationResult) : PipelineResult :=
  let speaker_map := labelSpeakersSmart monoDiarization monoTranscription
  let segments := alignSegments monoTranscription monoDiarization speaker_map
  { segments := segments, full_text := buildFullText segments,
    language := monoTranscription.language,
    duration := monoTranscription.duration,
    num_speakers := monoDiarization.num_speakers,
    channel_mode := ChannelMode.mono,
    raw_transcription := some monoTranscription,
    raw_diarization := some monoDiarization }

/-- `TranscriptionPipeline.process` after a successful decode: channel
count ≥ 2 routes to the stereo path, otherwise the mono path runs. -/
def process (transcribe : α → TranscriptionResult)
    (monoTranscription : TranscriptionResult)
    (monoDiarization : DiarizationResult)
    (audio : AudioFile α) : Except String PipelineResult :=
  if 2 ≤ audio.channels then runStereoPipeline transcribe audio
  else Except.ok (runMonoPipeline monoTranscription monoDiarization)

/-! ## Persistence model (`db/models.py`, `watcher/folder_watcher.py`,
`api/query.py`).

Rows mirror the SQLAlchemy models; datetimes are abstract `ℕ` instants.
`speaker_label` is embedded as `String`: every write path of this code
base stores a label.  `_process_file` becomes a total state transition:
the pipeline invocation is an `Except` parameter (an exception carries
`str(e)`), and `persistError` models an exception thrown during the
persistence writes before the final commit; in both failure cases the
session rollback discards every uncommitted row, so the embedding never
applies them.  Totality of `processFile` embeds the contract that
`_process_file` catches every `Exception` and never raises to its
caller. -/

inductive RecStatus where
  | pending
  | processing
  | done
  | error
deriving DecidableEq

structure RecordingRow where
  id : ℕ
  filename : String
  filepath : String
  duration_seconds : Option ℚ := none
  created_at : Option ℕ := none
  processed_at : Option ℕ := none
  status : RecStatus := RecStatus.pending
  error_message : Option String := none
deriving DecidableEq

structure TranscriptRow where
  id : ℕ
  recording_id : ℕ
  full_text : Option String := none
  language : Option String := none
  model_used : Option String := none
deriving DecidableEq

structure SegmentRow where
  id : ℕ
  transcript_id : ℕ
  speaker_label : String
  text : String
  start_time : ℚ
  end_time : ℚ
  confidence : Option ℚ := none
deriving DecidableEq

structure DB where
  recordings : List RecordingRow := []
  transcripts : List TranscriptRow := []
  segments : List SegmentRow := []
  nextRecordingId : ℕ := 1
  nextTranscriptId : ℕ := 1
  nextSegmentId : ℕ := 1
deriving DecidableEq

/-- `session.query(Recording).filter(Recording.filepath == ...).first()`. -/
def findByPath (db : DB) (fp : String) : Option RecordingRow :=
  db.recordings.find? (fun r => r.filepath = fp)

/-- `session.get(Recording, rid)`. -/
def findById (db : DB) (rid : ℕ) : Option RecordingRow :=
  db.recordings.find? (fun r => r.id = rid)

/-- Mutate-and-commit on the recording with the given id. -/
def updateRec (db : DB) (rid : ℕ) (f : RecordingRow → RecordingRow) : DB :=
  { db with recordings := db.recordings.map (fun r => if r.id = rid then f r else r) }

/-- The enqueue phase of `_process_file` (before the `try` block): skip
when `done`; reset status and error message when the record exists in any
other state; create a fresh `pending` record otherwise.  Returns the new
state and the id of the recording to process, or `none` for the skip. -/
def enqueuePhase (db : DB) (fp fn : String) : Option (DB × ℕ) :=
  match findByPath db fp with
  | some existing =>
    if existing.status = RecStatus.done then none
    else some
      (updateRec db existing.id
        (fun r => { r with status := RecStatus.pending, error_message := none }),
       existing.id)
  | none =>
    some
      ({ db with
          recordings := db.recordings ++
            [{ id := db.nextRecordingId, filename := fn, filepath := fp,
               status := RecStatus.pending }],
          nextRecordingId := db.nextRecordingId + 1 },
       db.nextRecordingId)

/-- Insert a `Transcript` row (returns its id, as `session.flush()` makes
it available). -/
def insertTranscript (db : DB) (rid : ℕ) (full lang : String) : DB × ℕ :=
  ({ db with
      transcripts := db.transcripts ++
        [{ id := db.nextTranscriptId, recording_id := rid,
           full_text := some full, language := some lang }],
      nextTranscriptId := db.nextTranscriptId + 1 },
   db.nextTranscriptId)

/-- Insert one `Segment` row per aligned segment, in result order. -/
def insertSegments (db : DB) (tid : ℕ) (segs : List AlignedSegment) : DB :=
  segs.foldl
    (fun db seg =>
      { db with
          segments := db.segments ++
            [{ id := db.nextSegmentId, transcript_id := tid,
               speaker_label := seg.speaker.toStr, text := seg.text,
               start_time := seg.start, end_time := seg.endTime,
               confidence := seg.confidence }],
          nextSegmentId := db.nextSegmentId + 1 })
    db

/-- The `try`/`except` body of `_process_file`: enter `processing`, then
either persist the result and finish `done`, or (on a pipeline exception
or a persistence exception) roll back the attempt's uncommitted rows and
record the `error` state with the exception's message text. -/
def runAttempt (db : DB) (rid : ℕ) (outcome : Except String PipelineResult)
    (persistError : Option String) (now : ℕ) : DB :=
  let db2 := updateRec db rid (fun r => { r with status := RecStatus.processing })
  match outcome with
  | Except.error e =>
    updateRec db2 rid
      (fun r => { r with status := RecStatus.error, error_message := some e })
  | Except.ok result =>
    match persistError with
    | some e =>
      updateRec db2 rid
        (fun r => { r with status := RecStatus.error, error_message := some e })
    | none =>
      let ins := insertTranscript db2 rid result.full_text result.language
      let db4 := insertSegments ins.1 ins.2 result.segments
      updateRec db4 rid
        (fun r =>
          { r with status := RecStatus.done,
                   duration_seconds := some result.duration,
                   processed_at := some now })

/-- `_process_file` end to end. -/
def processFile (db : DB) (fp fn : String) (outcome : Except String PipelineResult)
    (persistError : Option String) (now : ℕ) : DB :=
  match enqueuePhase db fp fn with
  | none => db
  | some (db1, rid) => runAttempt db1 rid outcome persistError now

/-- The id of the recording an invocation of `_process_file` on `fp`
works on (the existing record's id, or the id a fresh record receives). -/
def attemptId (db : DB) (fp : String) : ℕ :=
  match findByPath db fp with
  | some r => r.id
  | none => db.nextRecordingId

/-! ## Role swap (`api/query.py`, `swap_speakers`) -/

/-- `swap_map.get(label, label)`. -/
def swapLabel (l : String) : String :=
  if l = "agent" then "customer" else if l = "customer" then "agent" else l

/-- The transcript text `swap_speakers` rebuilds: segments sorted (stably)
by start time, each rendered `[Label] text` (`s.start_time or 0` equals
`s.start_time` on the non-nullable column: `0.0 or 0` is `0`). -/
def canonicalRender (segs : List SegmentRow) : String :=
  String.intercalate "\n"
    ((pySortAsc (fun s => s.start_time) segs).map
      (fun s => "[" ++ pyCapitalize s.speaker_label ++ "] " ++ s.text))

/-- The per-row label swap of the `for seg in segments` loop: only rows of
the found transcript are touched. -/
def swapSegRow (tid : ℕ) (s : SegmentRow) : SegmentRow :=
  if s.transcript_id = tid
  then { s with speaker_label := swapLabel s.speaker_label } else s

/-- `transcript.full_text = ...` on the row with the given id. -/
def setTransFullText (tid : ℕ) (full : String) (t2 : TranscriptRow) : TranscriptRow :=
  if t2.id = tid then { t2 with full_text := some full } else t2

/-- `swap_speakers`: find the recording's transcript, swap agent/customer
labels on its segments, re-render `full_text` from the updated segments. -/
def swapSpeakers (db : DB) (recording_id : ℕ) : DB × Bool :=
  match db.transcripts.find? (fun t => t.recording_id = recording_id) with
  | none => (db, false)
  | some t =>
    let newSegments := db.segments.map (swapSegRow t.id)
    let full := canonicalRender (newSegments.filter (fun s => s.transcript_id = t.id))
    ({ db with
        segments := newSegments,
        transcripts := db.transcripts.map (setTransFullText t.id full) },
     true)

/-- The label-independent projection of a segment row (everything a role
swap must not touch: identity, text, both timestamps, confidence). -/
def segProj (s : SegmentRow) : ℕ × ℕ × String × ℚ × ℚ × Option ℚ :=
  (s.id, s.transcript_id, s.text, s.start_time, s.end_time, s.confidence)

/-! ## Claim-side definition for C1

Modelled from the spec: "+3.0 per occurrence of a scripted/formal
agent-style phrase match found in the concatenated text" — signal 1 pays
3.0 for every `re.findall` occurrence of every agent pattern (so a pattern
matching k times contributes 3.0*k); signals 2-7 as the code computes
them.  To be compared with `speakerScore`, the embedding of the source's
scoring. -/
def specOccurrenceScore (dsegs : List DiarizationSegment)
    (tsegs : List TranscriptionSegment) (sp : String) : ℚ :=
  ((AGENT_PHRASES.map
      (fun p => pyFindallCount p (pyLower (speakerAllText dsegs tsegs sp)))).sum : ℚ)
    * 3.0
  + otherScoreSignals dsegs tsegs sp

/-! ## Concrete instances used by counterexamples and witnesses -/

def emptyDB : DB := {}

def emptyDiarization : DiarizationResult := { segments := [], num_speakers := 0 }

def trivialTranscription : TranscriptionResult :=
  { segments := [], language := "pl", language_probability := 1, duration := 0 }

/-- Two speakers with equal speaking time; "A" gets the only transcription
segment. -/
def diaCX1 : DiarizationResult :=
  { segments := [⟨"A", 0, 10⟩, ⟨"B", 10, 20⟩], num_speakers := 2 }

/-- One agent pattern ("rabat") occurring twice in one speaker text. -/
def transCX1 : TranscriptionResult :=
  { segments := [{ text := "rabat rabat", start := 0, endTime := 10 }],
    language := "pl", language_probability := 1, duration := 20 }

def diaCX4 : DiarizationResult :=
  { segments := [⟨"A", 0, 10⟩, ⟨"B", 10, 20⟩], num_speakers := 2 }

/-- The same diarization segments as `diaCX4`, listed in the other order. -/
def diaCX4perm : DiarizationResult :=
  { segments := [⟨"B", 10, 20⟩, ⟨"A", 0, 10⟩], num_speakers := 2 }

/-- A transcription segment overlapping both speakers of `diaCX4` equally
(5 seconds each), so the best-overlap choice is a pure tie-break. -/
def transCX4 : TranscriptionResult :=
  { segments := [{ text := "hello mate", start := 5, endTime := 15 }],
    language := "pl", language_probability := 1, duration := 20 }

/-- A decoded three-channel audio input (streams are opaque). -/
def audioCX5 : AudioFile Unit := ⟨[(), (), ()]⟩

def audioCX5two : AudioFile Unit := ⟨[(), ()]⟩

/-- Scenario B of the spec: transcription segment [10,12], diarization
covering only [0,5] and [5,10]. -/
def transCX6 : TranscriptionResult :=
  { segments := [{ text := "late words", start := 10, endTime := 12 }],
    language := "pl", language_probability := 1, duration := 12 }

def diaCX6 : DiarizationResult :=
  { segments := [⟨"S0", 0, 5⟩, ⟨"S1", 5, 10⟩], num_speakers := 2 }

def smapCX6 : PyDict String SpeakerLabel :=
  ⟨[("S0", SpeakerLabel.agent), ("S1", SpeakerLabel.customer)]⟩

/-- A transcription segment whose best-overlap tag "S2" is outside the
RoleMap. -/
def transCX10 : TranscriptionResult :=
  { segments := [{ text := "third voice", start := 0, endTime := 5 }],
    language := "pl", language_probability := 1, duration := 5 }

def diaCX10 : DiarizationResult :=
  { segments := [⟨"S2", 0, 5⟩], num_speakers := 1 }

def smapCX10 : PyDict String SpeakerLabel :=
  ⟨[("S0", SpeakerLabel.agent), ("S1", SpeakerLabel.customer)]⟩

/-- A recording persisted with a transcript and a segment row, in a
non-`done` state, about to be re-processed. -/
def dbCX2 : DB :=
  { recordings := [{ id := 1, filename := "a.wav", filepath := "a.wav",
                     status := RecStatus.error }],
    transcripts := [{ id := 1, recording_id := 1, full_text := some "old" }],
    segments := [{ id := 1, transcript_id := 1, speaker_label := "agent",
                   text := "old", start_time := 0, end_time := 1 }],
    nextRecordingId := 2, nextTranscriptId := 2, nextSegmentId := 2 }

/-- Mono transcription whose segments are not in start-time order. -/
def transCX8 : TranscriptionResult :=
  { segments := [{ text := "b", start := 5, endTime := 6 },
                 { text := "a", start := 0, endTime := 1 }],
    language := "pl", language_probability := 1, duration := 10 }

/-- The mono pipeline result for `transCX8` with no diarization: both
segments fall back to `agent`, rendered in transcription order. -/
def resCX8 : PipelineResult := runMonoPipeline transCX8 emptyDiarization

/-- `resCX8` persisted into an empty store by the lifecycle controller. -/
def dbCX8 : DB := processFile emptyDB "f.wav" "f.wav" (Except.ok resCX8) none 7

/-- Mono transcription already in start-time order. -/
def transCX8sorted : TranscriptionResult :=
  { segments := [{ text := "a", start := 0, endTime := 1 },
                 { text := "b", start := 5, endTime := 6 }],
    language := "pl", language_probability := 1, duration := 10 }

def resCX8sorted : PipelineResult := runMonoPipeline transCX8sorted emptyDiarization

def dbCX8sorted : DB :=
  processFile emptyDB "g.wav" "g.wav" (Except.ok resCX8sorted) none 3

/-- A failed recording carrying a processed timestamp and an error
message, re-detected by the watcher. -/
def rowCX7 : RecordingRow :=
  { id := 1, filename := "x.wav", filepath := "x.wav",
    processed_at := some 5, status := RecStatus.error,
    error_message := some "boom" }

def dbCX7 : DB := { recordings := [rowCX7], nextRecordingId := 2 }

end Transcriptor

deriving instance DecidableEq for Except

namespace Transcriptor

/-! ## Helper lemmas -/

theorem find?_map_of_pres {α : Type} (p : α → Bool) (g : α → α)
    (hp : ∀ x, p (g x) = p x) (l : List α) :
    (l.map g).find? p = (l.find? p).map g := by
  induction l with
  | nil => rfl
  | cons x xs ih =>
    cases hpx : p x with
    | true =>
      rw [List.map_cons, List.find?_cons_of_pos _ (by rw [hp]; exact hpx),
        List.find?_cons_of_pos _ hpx]
      rfl
    | false =>
      rw [List.map_cons, List.find?_cons_of_neg _ (by rw [hp, hpx]; simp),
        List.find?_cons_of_neg _ (by rw [hpx]; simp), ih]

theorem foldl_overlap_skip (tseg : TranscriptionSegment) :
    ∀ (l : List DiarizationSegment) (d : PyDict String ℚ),
    (∀ dseg ∈ l, overlapQ tseg.start tseg.endTime dseg.start dseg.endTime = 0) →
    l.foldl
      (fun d dseg =>
        let ov := overlapQ tseg.start tseg.endTime dseg.start dseg.endTime
        if 0 < ov then d.set dseg.speaker (d.getD dseg.speaker 0 + ov) else d)
      d = d := by
  intro l
  induction l with
  | nil => intro d _; rfl
  | cons x xs ih =>
    intro d h
    have hx := h x (List.mem_cons_self x xs)
    rw [List.foldl_cons]
    have hstep :
        (let ov := overlapQ tseg.start tseg.endTime x.start x.endTime
         if 0 < ov then d.set x.speaker (d.getD x.speaker 0 + ov) else d) = d := by
      simp only [hx, lt_irrefl, if_false]
    rw [hstep]
    exact ih d (fun dseg hm => h dseg (List.mem_cons_of_mem x hm))

theorem bestOverlapSpeaker_none (tseg : TranscriptionSegment)
    (dsegs : List DiarizationSegment)
    (h : ∀ dseg ∈ dsegs, overlapQ tseg.start tseg.endTime dseg.start dseg.endTime = 0) :
    bestOverlapSpeaker tseg dsegs = none := by
  unfold bestOverlapSpeaker speakerOverlapDict
  rw [foldl_overlap_skip tseg dsegs ⟨[]⟩ h]
  rfl

/-! ## C9 -/

/-- C9: the interval-overlap function `_overlap` is symmetric and
non-negative, and evaluates to exactly 0 on disjoint intervals. -/
theorem overlap_symm_nonneg_disjoint (a_start a_end b_start b_end : ℚ) :
    overlapQ a_start a_end b_start b_end = overlapQ b_start b_end a_start a_end ∧
    0 ≤ overlapQ a_start a_end b_start b_end ∧
    ((a_end ≤ b_start ∨ b_end ≤ a_start) →
      overlapQ a_start a_end b_start b_end = 0) := by
  refine ⟨?_, ?_, ?_⟩
  · unfold overlapQ
    rw [min_comm a_end b_end, max_comm a_start b_start]
  · exact le_max_left 0 _
  · intro h
    unfold overlapQ
    rcases h with h | h
    · have h1 : min a_end b_end ≤ a_end := min_le_left _ _
      have h2 : b_start ≤ max a_start b_start := le_max_right _ _
      exact max_eq_left (by linarith)
    · have h1 : min a_end b_end ≤ b_end := min_le_right _ _
      have h2 : a_start ≤ max a_start b_start := le_max_left _ _
      exact max_eq_left (by linarith)

/-- Witness for C9 at the concrete disjoint pair [0,1], [2,3]. -/
theorem overlap_symm_nonneg_disjoint_witness :
    overlapQ 0 1 2 3 = overlapQ 2 3 0 1 ∧ 0 ≤ overlapQ 0 1 2 3 ∧
    overlapQ 0 1 2 3 = 0 := by
  have h := overlap_symm_nonneg_disjoint 0 1 2 3
  exact ⟨h.1, h.2.1, h.2.2 (Or.inl (by norm_num))⟩

/-! ## C6 -/

/-- C6: a transcription segment with zero temporal overlap with every
diarization segment gets fallback role `agent`, and still contributes
exactly one `AlignedSegment` at its input position (the output has one
element per input segment, in input order). -/
theorem align_no_overlap_fallback_agent (transcription : TranscriptionResult)
    (diarization : DiarizationResult) (speaker_map : PyDict String SpeakerLabel)
    (i : ℕ) (h1 : i < transcription.segments.length)
    (h2 : i < (alignSegments transcription diarization speaker_map).length)
    (hov : ∀ dseg ∈ diarization.segments,
      overlapQ (transcription.segments.get ⟨i, h1⟩).start
        (transcription.segments.get ⟨i, h1⟩).endTime dseg.start dseg.endTime = 0) :
    (alignSegments transcription diarization speaker_map).length =
      transcription.segments.length ∧
    (alignSegments transcription diarization speaker_map).get ⟨i, h2⟩ =
      { speaker := SpeakerLabel.agent,
        text := (transcription.segments.get ⟨i, h1⟩).text,
        start := (transcription.segments.get ⟨i, h1⟩).start,
        endTime := (transcription.segments.get ⟨i, h1⟩).endTime,
        confidence := avgWordConfidence (transcription.segments.get ⟨i, h1⟩) } := by
  constructor
  · unfold alignSegments
    exact List.length_map _ _
  · unfold alignSegments at h2 ⊢
    rw [List.get_map]
    rw [bestOverlapSpeaker_none _ _ hov]

/-- Witness for C6: spec Scenario B, transcription segment [10,12] against
diarization [0,5] and [5,10]. -/
theorem align_no_overlap_fallback_agent_witness :
    (alignSegments transCX6 diaCX6 smapCX6).length = transCX6.segments.length ∧
    (alignSegments transCX6 diaCX6 smapCX6).get ⟨0, by with_unfolding_all decide⟩ =
      { speaker := SpeakerLabel.agent,
        text := (transCX6.segments.get ⟨0, by decide⟩).text,
        start := (transCX6.segments.get ⟨0, by decide⟩).start,
        endTime := (transCX6.segments.get ⟨0, by decide⟩).endTime,
        confidence := avgWordConfidence (transCX6.segments.get ⟨0, by decide⟩) } :=
  align_no_overlap_fallback_agent transCX6 diaCX6 smapCX6 0 (by decide)
    (by with_unfolding_all decide) (by with_unfolding_all decide)

/-! ## C10 -/

/-- C10: when the best-overlap diarization tag is not a key of the
RoleMap, `_align_segments` assigns `customer` (the lookup default),
unlike the `agent` fallback of the no-overlap case. -/
theorem align_unmapped_tag_customer (transcription : TranscriptionResult)
    (diarization : DiarizationResult) (speaker_map : PyDict String SpeakerLabel)
    (i : ℕ) (h1 : i < transcription.segments.length)
    (h2 : i < (alignSegments transcription diarization speaker_map).length)
    (raw : String)
    (hbest : bestOverlapSpeaker (transcription.segments.get ⟨i, h1⟩)
      diarization.segments = some raw)
    (hmap : speaker_map.get? raw = none) :
    ((alignSegments transcription diarization speaker_map).get ⟨i, h2⟩).speaker =
      SpeakerLabel.customer := by
  unfold alignSegments at h2 ⊢
  rw [List.get_map, hbest]
  simp only [hmap, Option.getD_none]

/-- Witness for C10: one diarization speaker "S2" outside the RoleMap. -/
theorem align_unmapped_tag_customer_witness :
    ((alignSegments transCX10 diaCX10 smapCX10).get ⟨0, by with_unfolding_all decide⟩).speaker =
      SpeakerLabel.customer :=
  align_unmapped_tag_customer transCX10 diaCX10 smapCX10 0 (by decide)
    (by with_unfolding_all decide) "S2" (by with_unfolding_all decide)
    (by decide)

/-! ## PyDict lookup lemmas -/

theorem find?_cons_pos {α : Type} (p : α → Bool) (a : α) (l : List α)
    (h : p a = true) : (a :: l).find? p = some a := by
  simp [List.find?, h]

theorem find?_cons_neg {α : Type} (p : α → Bool) (a : α) (l : List α)
    (h : p a = false) : (a :: l).find? p = l.find? p := by
  simp [List.find?, h]

theorem find?_map_update_same {α β : Type} [DecidableEq α] (k : α) (v : β) :
    ∀ l : List (α × β),
    (l.map (fun e => if e.1 = k then (k, v) else e)).find? (fun e => e.1 = k)
      = if l.any (fun e => e.1 = k) then some (k, v) else none := by
  intro l
  induction l with
  | nil => rfl
  | cons e es ih =>
    by_cases he : e.1 = k
    · simp only [List.map_cons, if_pos he, List.any_cons]
      rw [find?_cons_pos (fun e => decide (e.1 = k)) ((k, v) : α × β) _ (by simp)]
      simp [he]
    · simp only [List.map_cons, if_neg he, List.any_cons]
      rw [find?_cons_neg (fun e => decide (e.1 = k)) e _ (by simp [he]), ih]
      have hd : decide (e.1 = k) = false := by simp [he]
      simp only [hd, Bool.false_or]

theorem find?_map_update_other {α β : Type} [DecidableEq α] (k k' : α) (v : β)
    (hne : k' ≠ k) : ∀ l : List (α × β),
    (l.map (fun e => if e.1 = k then (k, v) else e)).find? (fun e => e.1 = k')
      = l.find? (fun e => e.1 = k') := by
  intro l
  induction l with
  | nil => rfl
  | cons e es ih =>
    by_cases he : e.1 = k
    · have hval : (fun e : α × β => decide (e.1 = k')) e = false := by
        simp only [decide_eq_false_iff_not, he]
        exact fun hh => hne hh.symm
      simp only [List.map_cons, if_pos he]
      rw [find?_cons_neg (fun e => decide (e.1 = k')) ((k, v) : α × β) _
          (by simp [Ne.symm hne]),
        find?_cons_neg (fun e => decide (e.1 = k')) e _ hval, ih]
    · simp only [List.map_cons, if_neg he]
      by_cases he' : e.1 = k'
      · rw [find?_cons_pos (fun e => decide (e.1 = k')) e _ (by simp [he']),
          find?_cons_pos (fun e => decide (e.1 = k')) e _ (by simp [he'])]
      · rw [find?_cons_neg (fun e => decide (e.1 = k')) e _ (by simp [he']),
          find?_cons_neg (fun e => decide (e.1 = k')) e _ (by simp [he']), ih]

theorem PyDict.get?_set {α β : Type} [DecidableEq α] (d : PyDict α β)
    (k k' : α) (v : β) :
    (d.set k v).get? k' = if k' = k then some v else d.get? k' := by
  obtain ⟨l⟩ := d
  show (PyDict.set ⟨l⟩ k v).get? k' = _
  unfold PyDict.set
  by_cases hany : l.any (fun e => e.1 = k)
  · rw [if_pos hany]
    show Option.map _ (List.find? _ _) = _
    by_cases hk : k' = k
    · rw [if_pos hk, hk, find?_map_update_same k v l, if_pos hany]
      rfl
    · rw [find?_map_update_other k k' v hk l]
      rw [if_neg hk]
      rfl
  · rw [if_neg hany]
    show Option.map _ (List.find? _ _) = _
    rw [List.find?_append]
    by_cases hk : k' = k
    · subst hk
      have hnone : l.find? (fun e => e.1 = k') = none := by
        rw [List.find?_eq_none]
        intro x hx
        simp only [decide_eq_true_eq]
        intro hxk
        exact hany (List.any_eq_true.mpr ⟨x, hx, by simp [hxk]⟩)
      rw [hnone, if_pos rfl]
      simp
    · have hsing : ([(k, v)] : List (α × β)).find? (fun e => e.1 = k') = none := by
        rw [List.find?_eq_none]
        intro x hx
        simp only [List.mem_singleton] at hx
        simp [hx, Ne.symm hk]
      rw [hsing, if_neg hk]
      show Option.map _ ((List.find? _ l).or none) = _
      rw [Option.or_none]
      rfl

theorem PyDict.getD_set {α β : Type} [DecidableEq α] (d : PyDict α β)
    (k k' : α) (v d₀ : β) :
    (d.set k v).getD k' d₀ = if k' = k then v else d.getD k' d₀ := by
  unfold PyDict.getD
  rw [PyDict.get?_set]
  by_cases hk : k' = k
  · rw [if_pos hk, if_pos hk]
    rfl
  · rw [if_neg hk, if_neg hk]

/-- Value of an accumulate-by-key fold: the base value plus the sum of the
contributions of the entries carrying this key. -/
theorem getD_foldl_add {γ β : Type} [AddCommMonoid β] (key : γ → String)
    (f : γ → β) :
    ∀ (l : List γ) (d : PyDict String β) (sp : String),
    (l.foldl (fun d x => d.set (key x) (d.getD (key x) 0 + f x)) d).getD sp 0
      = d.getD sp 0 + ((l.filter (fun x => key x = sp)).map f).sum := by
  intro l
  induction l with
  | nil => intro d sp; simp
  | cons x xs ih =>
    intro d sp
    rw [List.foldl_cons, ih]
    by_cases hx : key x = sp
    · rw [List.filter_cons_of_pos (by simp [hx]), List.map_cons, List.sum_cons]
      rw [PyDict.getD_set, if_pos hx.symm, hx, add_assoc]
    · rw [List.filter_cons_of_neg (by simp [hx])]
      rw [PyDict.getD_set, if_neg (fun h => hx h.symm)]

theorem speakingTimeDict_getD (l : List DiarizationSegment) (sp : String) :
    (speakingTimeDict l).getD sp 0
      = ((l.filter (fun x => x.speaker = sp)).map (fun x => x.endTime - x.start)).sum := by
  unfold speakingTimeDict
  rw [getD_foldl_add (fun s => s.speaker) (fun s => s.endTime - s.start) l ⟨[]⟩ sp]
  simp [PyDict.getD, PyDict.get?]

theorem segmentCountDict_getD (l : List DiarizationSegment) (sp : String) :
    (segmentCountDict l).getD sp 0
      = ((l.filter (fun x => x.speaker = sp)).map (fun _ => (1 : ℕ))).sum := by
  unfold segmentCountDict
  rw [getD_foldl_add (fun s => s.speaker) (fun _ => (1 : ℕ)) l ⟨[]⟩ sp]
  simp [PyDict.getD, PyDict.get?]

/-! ## C4 -/

/-- Counterexample for C4 as stated: the same diarization segments in the
other order (a permutation) change the classifier's output RoleMap — the
equal-overlap tie and the first-appearance bookkeeping both follow list
order. -/
theorem classifier_order_dependent_cex :
    diaCX4perm.segments.Perm diaCX4.segments ∧
    labelSpeakersSmart diaCX4perm transCX4 ≠ labelSpeakersSmart diaCX4 transCX4 := by
  constructor
  · exact List.Perm.swap _ _ _
  · with_unfolding_all decide

/-- C4 amended: the classifier is not order-independent in general (see
the counterexample: best-overlap ties and first-appearance bookkeeping
follow list order); what reordering the diarization list cannot change
are the per-speaker aggregate statistics it scores with — total speaking
time and segment count. -/
theorem classifier_stats_order_invariant (l l' : List DiarizationSegment)
    (sp : String) (hperm : l.Perm l') :
    (speakingTimeDict l).getD sp 0 = (speakingTimeDict l').getD sp 0 ∧
    (segmentCountDict l).getD sp 0 = (segmentCountDict l').getD sp 0 := by
  constructor
  · rw [speakingTimeDict_getD, speakingTimeDict_getD]
    exact List.Perm.sum_eq ((hperm.filter _).map _)
  · rw [segmentCountDict_getD, segmentCountDict_getD]
    exact List.Perm.sum_eq ((hperm.filter _).map _)

/-- Witness for C4 amended at the concrete permuted pair. -/
theorem classifier_stats_order_invariant_witness :
    (speakingTimeDict diaCX4perm.segments).getD "A" 0 =
      (speakingTimeDict diaCX4.segments).getD "A" 0 ∧
    (segmentCountDict diaCX4perm.segments).getD "A" 0 =
      (segmentCountDict diaCX4.segments).getD "A" 0 :=
  classifier_stats_order_invariant diaCX4perm.segments diaCX4.segments "A"
    (List.Perm.swap _ _ _)

/-! ## C1 -/

/-- A pattern has at least one `findall` occurrence exactly when `search`
succeeds: the two scans inspect the same positions and stop conditions. -/
theorem findallF_pos_iff_search (toks : List RTok) :
    ∀ (s : List Char) (prev : Option Char) (fuel : ℕ), s.length ≤ fuel →
    (1 ≤ findallFromF toks fuel prev s ↔ searchAux toks prev s = true) := by
  intro s
  induction s with
  | nil =>
    intro prev fuel _
    cases fuel with
    | zero =>
      simp only [findallFromF, searchAux]
      cases h : (matchLen toks prev []).isSome <;> simp [h]
    | succ f =>
      simp only [findallFromF, searchAux]
      cases h : (matchLen toks prev []).isSome <;> simp [h]
  | cons c rest ih =>
    intro prev fuel hfuel
    cases fuel with
    | zero => simp at hfuel
    | succ f =>
      have hf : rest.length ≤ f := by
        simpa [Nat.succ_le_succ_iff] using hfuel
      simp only [findallFromF, searchAux]
      cases hm : matchLen toks prev (c :: rest) with
      | none =>
        simp only [hm, Option.isSome_none, Bool.false_or]
        exact ih (some c) f hf
      | some m =>
        cases m with
        | zero => simp [hm]
        | succ k => simp [hm]

theorem pySearch_iff_one_le_findall (toks : List RTok) (s : String) :
    pySearch toks s = true ↔ 1 ≤ pyFindallCount toks s := by
  unfold pySearch pyFindallCount findallFrom
  exact (findallF_pos_iff_search toks s.data none s.data.length le_rfl).symm

/-- Counterexample for C1 as stated: with two candidate speakers and the
text "rabat rabat" attributed to "A", the pattern "rabat" occurs twice
but contributes 3.0 only once, so the code's score differs from the
per-occurrence score the claim describes. -/
theorem score_per_occurrence_cex :
    (topSpeakers diaCX1.segments).length = 2 ∧
    "A" ∈ topSpeakers diaCX1.segments ∧
    speakerScore diaCX1.segments transCX1.segments "A" ≠
      specOccurrenceScore diaCX1.segments transCX1.segments "A" := by
  refine ⟨?_, ?_, ?_⟩
  · with_unfolding_all decide
  · with_unfolding_all decide
  · with_unfolding_all decide

/-- C1 amended: a candidate speaker's score gains 3.0 per agent-style
phrase pattern that has at least one occurrence in the concatenated text
(each pattern counted at most once, however many times it occurs). -/
theorem score_per_matching_pattern (dsegs : List DiarizationSegment)
    (tsegs : List TranscriptionSegment) (sp : String)
    (hcand : 2 ≤ (topSpeakers dsegs).length)
    (hmem : sp ∈ topSpeakers dsegs) :
    speakerScore dsegs tsegs sp =
      ((AGENT_PHRASES.countP
          (fun p => 1 ≤ pyFindallCount p (pyLower (speakerAllText dsegs tsegs sp)))) : ℚ)
        * 3.0
      + otherScoreSignals dsegs tsegs sp := by
  have hc : countPhraseMatches (speakerAllText dsegs tsegs sp) AGENT_PHRASES =
      AGENT_PHRASES.countP
        (fun p => 1 ≤ pyFindallCount p (pyLower (speakerAllText dsegs tsegs sp))) := by
    unfold countPhraseMatches
    refine List.countP_congr ?_
    intro p _
    have h := pySearch_iff_one_le_findall p (pyLower (speakerAllText dsegs tsegs sp))
    constructor
    · intro hs
      simpa using h.mp (by simpa using hs)
    · intro hs
      simpa using h.mpr (by simpa using hs)
  unfold speakerScore otherScoreSignals
  unfold agentPhraseCount
  rw [hc]
  ring

/-- Witness for C1 amended at the concrete two-candidate input. -/
theorem score_per_matching_pattern_witness :
    2 ≤ (topSpeakers diaCX1.segments).length ∧
    "A" ∈ topSpeakers diaCX1.segments ∧
    speakerScore diaCX1.segments transCX1.segments "A" =
      ((AGENT_PHRASES.countP
          (fun p => 1 ≤ pyFindallCount p
            (pyLower (speakerAllText diaCX1.segments transCX1.segments "A")))) : ℚ)
        * 3.0
      + otherScoreSignals diaCX1.segments transCX1.segments "A" :=
  ⟨by with_unfolding_all decide, by with_unfolding_all decide,
   score_per_matching_pattern diaCX1.segments transCX1.segments "A"
     (by with_unfolding_all decide) (by with_unfolding_all decide)⟩

/-! ## C5 -/

/-- Counterexample for C5 as stated: a decoded three-channel input enters
the ≥2-channel route but `_split_stereo` raises `ValueError`, so no
stereo-mode result (with its segments, `num_speakers` 2, mode `stereo`)
is ever produced. -/
theorem stereo_route_three_channels_cex :
    audioCX5.channels = 3 ∧ 2 ≤ audioCX5.channels ∧
    process (fun _ : Unit => trivialTranscription) trivialTranscription
        emptyDiarization audioCX5 =
      Except.error "Expected stereo audio (2 channels), got 3" := by
  refine ⟨rfl, by decide, ?_⟩
  with_unfolding_all decide

/-- C5 amended: exactly-two-channel inputs run stereo mode — the two
channel streams are transcribed independently, channel 0 becomes `agent`
and channel 1 `customer`, the merged segments are stably sorted by start
time, `num_speakers` is fixed to 2, `channel_mode` is `stereo`, and the
result does not depend on the mono-path collaborators (diarization and
whole-file transcription are never invoked); inputs with three or more
channels take the stereo route but fail with the channel-count
`ValueError` instead of producing a result. -/
theorem stereo_mode_two_channels {α : Type} (transcribe : α → TranscriptionResult)
    (mt mt' : TranscriptionResult) (md md' : DiarizationResult)
    (c0 c1 : α) (audio : AudioFile α) (h : audio.monoStreams = [c0, c1]) :
    process transcribe mt md audio =
      Except.ok
        { segments := pySortAsc (fun s => s.start)
            ((transcribe c0).segments.map mkAgentSeg ++
              (transcribe c1).segments.map mkCustomerSeg),
          full_text := buildFullText (pySortAsc (fun s => s.start)
            ((transcribe c0).segments.map mkAgentSeg ++
              (transcribe c1).segments.map mkCustomerSeg)),
          language := (transcribe c0).language,
          duration := max (transcribe c0).duration (transcribe c1).duration,
          num_speakers := 2, channel_mode := ChannelMode.stereo } ∧
    process transcribe mt md audio = process transcribe mt' md' audio := by
  obtain ⟨ms⟩ := audio
  simp only [AudioFile.mk.injEq] at h
  subst h
  exact ⟨rfl, rfl⟩

/-- Witness for C5 amended on a concrete two-channel input. -/
theorem stereo_mode_two_channels_witness :
    process (fun _ : Unit => trivialTranscription) trivialTranscription
        emptyDiarization audioCX5two =
      Except.ok
        { segments := pySortAsc (fun s => s.start)
            ((trivialTranscription).segments.map mkAgentSeg ++
              (trivialTranscription).segments.map mkCustomerSeg),
          full_text := buildFullText (pySortAsc (fun s => s.start)
            ((trivialTranscription).segments.map mkAgentSeg ++
              (trivialTranscription).segments.map mkCustomerSeg)),
          language := (trivialTranscription).language,
          duration := max (trivialTranscription).duration (trivialTranscription).duration,
          num_speakers := 2, channel_mode := ChannelMode.stereo } ∧
    process (fun _ : Unit => trivialTranscription) trivialTranscription
        emptyDiarization audioCX5two =
      process (fun _ : Unit => trivialTranscription) trivialTranscription
        { segments := [⟨"Z", 0, 1⟩], num_speakers := 1 } audioCX5two :=
  stereo_mode_two_channels (fun _ : Unit => trivialTranscription)
    trivialTranscription trivialTranscription emptyDiarization
    { segments := [⟨"Z", 0, 1⟩], num_speakers := 1 } () () audioCX5two rfl

/-! ## C7 -/

/-- Counterexample for C7 as stated: resetting the re-detected failed
recording clears the error message and re-enters `pending`, but the
processed timestamp survives, while the claim says both are cleared. -/
theorem enqueue_keeps_processed_at_cex :
    (enqueuePhase dbCX7 "x.wav" "x.wav").map
        (fun p => (findById p.1 1).map
          (fun r => (r.status, r.error_message, r.processed_at)))
      = some (some (RecStatus.pending, none, some 5)) := by
  with_unfolding_all decide

/-- C7 amended: on re-detection of an existing record, `done` recordings
are skipped with no state change; in any other state the status is reset
to `pending` and the error message is cleared, while the processed
timestamp — and every other field, and every other row and table — is
left unchanged. -/
theorem enqueue_skip_or_reset (db : DB) (fp fn : String)
    (outcome : Except String PipelineResult) (pe : Option String) (now : ℕ)
    (r : RecordingRow) (hfind : findByPath db fp = some r) :
    (r.status = RecStatus.done → processFile db fp fn outcome pe now = db) ∧
    (r.status ≠ RecStatus.done →
      enqueuePhase db fp fn = some
        (updateRec db r.id
          (fun r2 => { r2 with status := RecStatus.pending, error_message := none }),
         r.id) ∧
      (updateRec db r.id
          (fun r2 => { r2 with status := RecStatus.pending, error_message := none })).recordings
        = db.recordings.map
            (fun r2 => if r2.id = r.id
              then { r2 with status := RecStatus.pending, error_message := none }
              else r2) ∧
      (updateRec db r.id
          (fun r2 => { r2 with status := RecStatus.pending, error_message := none })).transcripts
        = db.transcripts ∧
      (updateRec db r.id
          (fun r2 => { r2 with status := RecStatus.pending, error_message := none })).segments
        = db.segments) := by
  constructor
  · intro hdone
    simp only [processFile, enqueuePhase, hfind, if_pos hdone]
  · intro hno
    refine ⟨?_, rfl, rfl, rfl⟩
    simp only [enqueuePhase, hfind, if_neg hno]

/-- Witness for C7 amended: the reset branch at the concrete failed
recording. -/
theorem enqueue_skip_or_reset_witness :
    enqueuePhase dbCX7 "x.wav" "x.wav" = some
      (updateRec dbCX7 rowCX7.id
        (fun r2 => { r2 with status := RecStatus.pending, error_message := none }),
       rowCX7.id) :=
  ((enqueue_skip_or_reset dbCX7 "x.wav" "x.wav" (Except.error "x") none 0 rowCX7
    (by with_unfolding_all decide)).2 (by decide)).1

/-! ## C2 -/

theorem insertSegments_transcripts (tid : ℕ) :
    ∀ (segs : List AlignedSegment) (db : DB),
    (insertSegments db tid segs).transcripts = db.transcripts := by
  intro segs
  induction segs with
  | nil => intro db; rfl
  | cons s ss ih =>
    intro db
    unfold insertSegments
    rw [List.foldl_cons]
    exact ih _

theorem insertSegments_mem_segments (tid : ℕ) :
    ∀ (segs : List AlignedSegment) (db : DB) (x : SegmentRow),
    x ∈ db.segments → x ∈ (insertSegments db tid segs).segments := by
  intro segs
  induction segs with
  | nil => intro db x hx; exact hx
  | cons s ss ih =>
    intro db x hx
    unfold insertSegments
    rw [List.foldl_cons]
    exact ih _ x (List.mem_append_left _ hx)

theorem runAttempt_preserves_rows (db : DB) (rid : ℕ)
    (outcome : Except String PipelineResult) (pe : Option String) (now : ℕ) :
    (∀ t ∈ db.transcripts, t ∈ (runAttempt db rid outcome pe now).transcripts) ∧
    (∀ s ∈ db.segments, s ∈ (runAttempt db rid outcome pe now).segments) := by
  unfold runAttempt
  cases outcome with
  | error e => exact ⟨fun t ht => ht, fun s hs => hs⟩
  | ok result =>
    cases pe with
    | some e => exact ⟨fun t ht => ht, fun s hs => hs⟩
    | none =>
      constructor
      · intro t ht
        show t ∈ (insertSegments _ _ _).transcripts
        rw [insertSegments_transcripts]
        exact List.mem_append_left _ ht
      · intro s hs
        exact insertSegments_mem_segments _ _ _ s hs

/-- C2 amended: the pending-to-processing transition deletes nothing —
re-processing is additive, every previously persisted transcript row and
segment row is still present after `_process_file` finishes (on success a
new transcript and fresh segment rows are inserted alongside them). -/
theorem processFile_preserves_rows (db : DB) (fp fn : String)
    (outcome : Except String PipelineResult) (pe : Option String) (now : ℕ) :
    (∀ t ∈ db.transcripts, t ∈ (processFile db fp fn outcome pe now).transcripts) ∧
    (∀ s ∈ db.segments, s ∈ (processFile db fp fn outcome pe now).segments) := by
  unfold processFile enqueuePhase
  cases hf : findByPath db fp with
  | none =>
    exact ⟨fun t ht => (runAttempt_preserves_rows _ _ outcome pe now).1 t ht,
           fun s hs => (runAttempt_preserves_rows _ _ outcome pe now).2 s hs⟩
  | some r =>
    by_cases hd : r.status = RecStatus.done
    · simp only [if_pos hd]
      exact ⟨fun t ht => ht, fun s hs => hs⟩
    · simp only [if_neg hd]
      exact ⟨fun t ht => (runAttempt_preserves_rows _ _ outcome pe now).1 t ht,
             fun s hs => (runAttempt_preserves_rows _ _ outcome pe now).2 s hs⟩

/-- Counterexample for C2 as stated: a recording with a persisted
transcript and segment row is re-processed to completion (`done`), and
the prior transcript and segment rows are still persisted — nothing was
deleted. -/
theorem reprocess_keeps_old_rows_cex :
    ((⟨1, 1, some "old", none, none⟩ : TranscriptRow) ∈
      (processFile dbCX2 "a.wav" "a.wav" (Except.ok resCX8) none 9).transcripts) ∧
    ((⟨1, 1, "agent", "old", 0, 1, none⟩ : SegmentRow) ∈
      (processFile dbCX2 "a.wav" "a.wav" (Except.ok resCX8) none 9).segments) ∧
    (findById (processFile dbCX2 "a.wav" "a.wav" (Except.ok resCX8) none 9) 1).map
        (fun r => r.status) = some RecStatus.done := by
  with_unfolding_all decide

/-- Witness for C2 amended: the old transcript row of `dbCX2` survives
the successful re-run. -/
theorem processFile_preserves_rows_witness :
    (⟨1, 1, some "old", none, none⟩ : TranscriptRow) ∈
      (processFile dbCX2 "a.wav" "a.wav" (Except.ok resCX8) none 9).transcripts :=
  (processFile_preserves_rows dbCX2 "a.wav" "a.wav" (Except.ok resCX8) none 9).1
    ⟨1, 1, some "old", none, none⟩ (by decide)

/-! ## C3 -/

theorem findById_updateRec (db : DB) (rid : ℕ) (f : RecordingRow → RecordingRow)
    (hid : ∀ x, (f x).id = x.id) :
    findById (updateRec db rid f) rid
      = (findById db rid).map (fun r => if r.id = rid then f r else r) := by
  unfold findById updateRec
  refine find?_map_of_pres _ _ (fun x => ?_) db.recordings
  by_cases hx : x.id = rid
  · simp [hx, hid x]
  · simp [hx]

theorem findById_runAttempt_error (db : DB) (rid : ℕ) (e : String)
    (outcome : Except String PipelineResult) (pe : Option String) (now : ℕ)
    (herr : outcome = Except.error e ∨
      (pe = some e ∧ ∃ res, outcome = Except.ok res))
    (hsome : (findById db rid).isSome) :
    ((findById (runAttempt db rid outcome pe now) rid).map (fun r => r.status)
      = some RecStatus.error) ∧
    ((findById (runAttempt db rid outcome pe now) rid).map (fun r => r.error_message)
      = some (some e)) ∧
    (runAttempt db rid outcome pe now).transcripts = db.transcripts ∧
    (runAttempt db rid outcome pe now).segments = db.segments := by
  obtain ⟨r₀, hr₀⟩ := Option.isSome_iff_exists.mp hsome
  have hid₀ : r₀.id = rid := by
    have := List.find?_some hr₀
    simpa using this
  have herrcase :
      runAttempt db rid outcome pe now =
        updateRec (updateRec db rid (fun r => { r with status := RecStatus.processing }))
          rid (fun r => { r with status := RecStatus.error, error_message := some e }) := by
    rcases herr with ho | ⟨hpe, res, ho⟩
    · subst ho; rfl
    · subst ho; subst hpe; rfl
  rw [herrcase]
  rw [findById_updateRec
      (updateRec db rid (fun r => { r with status := RecStatus.processing })) rid
      (fun r => { r with status := RecStatus.error, error_message := some e })
      (fun x => rfl),
    findById_updateRec db rid
      (fun r => { r with status := RecStatus.processing })
      (fun x => rfl),
    hr₀]
  refine ⟨?_, ?_, rfl, rfl⟩ <;> simp [hid₀]

/-- C3: `_process_file` is a total transition (the embedding catches every
modelled failure — it never re-raises): whenever the pipeline run or the
persistence step throws after the recording entered `processing`, the
recording ends in status `error` with `error_message` equal to the thrown
message text, and the transcript and segment tables are exactly what they
were before the attempt — no row written by the attempt survives the
rollback. -/
theorem processFile_failure_sets_error (db : DB) (fp fn e : String)
    (outcome : Except String PipelineResult) (pe : Option String) (now : ℕ)
    (hnd : (findByPath db fp).map (fun r => r.status) ≠ some RecStatus.done)
    (herr : outcome = Except.error e ∨
      (pe = some e ∧ ∃ res, outcome = Except.ok res)) :
    ((findById (processFile db fp fn outcome pe now) (attemptId db fp)).map
        (fun r => r.status) = some RecStatus.error) ∧
    ((findById (processFile db fp fn outcome pe now) (attemptId db fp)).map
        (fun r => r.error_message) = some (some e)) ∧
    (processFile db fp fn outcome pe now).transcripts = db.transcripts ∧
    (processFile db fp fn outcome pe now).segments = db.segments := by
  unfold processFile enqueuePhase attemptId
  cases hf : findByPath db fp with
  | none =>
    have hsome :
        (findById
          { db with
              recordings := db.recordings ++
                [{ id := db.nextRecordingId, filename := fn, filepath := fp,
                   status := RecStatus.pending }],
              nextRecordingId := db.nextRecordingId + 1 } db.nextRecordingId).isSome := by
      unfold findById
      rw [List.find?_isSome]
      exact ⟨_, List.mem_append_right _ (List.mem_singleton_self _), by simp⟩
    exact findById_runAttempt_error _ db.nextRecordingId e outcome pe now herr hsome
  | some r =>
    have hrd : ¬r.status = RecStatus.done := by
      intro hh
      exact hnd (by rw [hf]; simp [hh])
    simp only [if_neg hrd]
    have hsome : (findById
        (updateRec db r.id
          (fun r2 => { r2 with status := RecStatus.pending, error_message := none }))
        r.id).isSome := by
      rw [findById_updateRec db r.id
        (fun r2 => { r2 with status := RecStatus.pending, error_message := none })
        (fun x => rfl)]
      have hsome0 : (findById db r.id).isSome := by
        unfold findById
        rw [List.find?_isSome]
        exact ⟨r, List.mem_of_find?_eq_some hf, by simp⟩
      obtain ⟨r1, hr1⟩ := Option.isSome_iff_exists.mp hsome0
      rw [hr1]
      rfl
    exact findById_runAttempt_error _ r.id e outcome pe now herr hsome

/-- Witness for C3: a fresh file whose pipeline throws "boom". -/
theorem processFile_failure_sets_error_witness :
    ((findById (processFile emptyDB "a.wav" "a.wav" (Except.error "boom") none 0)
        (attemptId emptyDB "a.wav")).map (fun r => r.status) = some RecStatus.error) ∧
    ((findById (processFile emptyDB "a.wav" "a.wav" (Except.error "boom") none 0)
        (attemptId emptyDB "a.wav")).map (fun r => r.error_message)
      = some (some "boom")) ∧
    (processFile emptyDB "a.wav" "a.wav" (Except.error "boom") none 0).transcripts
      = emptyDB.transcripts ∧
    (processFile emptyDB "a.wav" "a.wav" (Except.error "boom") none 0).segments
      = emptyDB.segments :=
  processFile_failure_sets_error emptyDB "a.wav" "a.wav" "boom"
    (Except.error "boom") none 0 (by decide) (Or.inl rfl)

/-! ## C8 -/

theorem swapLabel_swapLabel (l : String) : swapLabel (swapLabel l) = l := by
  unfold swapLabel
  by_cases h1 : l = "agent"
  · simp [h1]
  · by_cases h2 : l = "customer"
    · simp [h2]
    · simp [h1, h2]

theorem swapSegRow_invol (tid : ℕ) (s : SegmentRow) :
    swapSegRow tid (swapSegRow tid s) = s := by
  unfold swapSegRow
  by_cases h : s.transcript_id = tid
  · have h2 : ({ s with speaker_label := swapLabel s.speaker_label } :
        SegmentRow).transcript_id = tid := h
    rw [if_pos h, if_pos h2]
    show ({ s with speaker_label := swapLabel (swapLabel s.speaker_label) } :
      SegmentRow) = s
    rw [swapLabel_swapLabel]
  · rw [if_neg h, if_neg h]

theorem segProj_swapSegRow (tid : ℕ) (s : SegmentRow) :
    segProj (swapSegRow tid s) = segProj s := by
  unfold swapSegRow segProj
  by_cases h : s.transcript_id = tid <;> simp [h]

theorem setTransFullText_recording_id (tid : ℕ) (full : String)
    (t2 : TranscriptRow) : (setTransFullText tid full t2).recording_id = t2.recording_id := by
  unfold setTransFullText
  by_cases h : t2.id = tid <;> simp [h]

/-- One `swap_speakers` call on a recording whose transcript is found. -/
theorem swapSpeakers_eq (db : DB) (rid : ℕ) (t : TranscriptRow)
    (hfind : db.transcripts.find? (fun t2 => t2.recording_id = rid) = some t) :
    swapSpeakers db rid =
      ({ db with
          segments := db.segments.map (swapSegRow t.id),
          transcripts := db.transcripts.map
            (setTransFullText t.id
              (canonicalRender ((db.segments.map (swapSegRow t.id)).filter
                (fun s => s.transcript_id = t.id)))) }, true) := by
  unfold swapSpeakers
  rw [hfind]

/-- C8 amended: on a recording whose transcript is found, a single swap
reports success, touches no recording row, and preserves every segment's
identity, text, timestamps, confidence and position (only labels and the
rendered text change); swapping twice always restores every segment row
(labels included) exactly, and the transcript row found after the double
swap always carries the original data with `full_text` equal to the
canonical rendering of the original segment rows stably sorted by start
time — so whenever the persisted `full_text` was that canonical
rendering (as when the rows were persisted in start-time order) the
double swap restores the transcript row, original rendered text
included, and otherwise it replaces the text by that re-sorted
rendering. -/
theorem swap_speakers_roundtrip (db : DB) (rid : ℕ) (t : TranscriptRow)
    (hfind : db.transcripts.find? (fun t2 => t2.recording_id = rid) = some t) :
    (swapSpeakers db rid).2 = true ∧
    ((swapSpeakers db rid).1).recordings = db.recordings ∧
    ((swapSpeakers db rid).1).segments.map segProj = db.segments.map segProj ∧
    ((swapSpeakers (swapSpeakers db rid).1 rid).1).segments = db.segments ∧
    ((swapSpeakers (swapSpeakers db rid).1 rid).1).transcripts.find?
        (fun t2 => t2.recording_id = rid)
      = some { t with full_text := some (canonicalRender
          (db.segments.filter (fun s => s.transcript_id = t.id))) } ∧
    (t.full_text =
        some (canonicalRender (db.segments.filter (fun s => s.transcript_id = t.id))) →
      ((swapSpeakers (swapSpeakers db rid).1 rid).1).transcripts.find?
          (fun t2 => t2.recording_id = rid) = some t) := by
  rw [swapSpeakers_eq db rid t hfind]
  set full1 := canonicalRender ((db.segments.map (swapSegRow t.id)).filter
    (fun s => s.transcript_id = t.id)) with hfull1
  have hfind1 :
      (db.transcripts.map (setTransFullText t.id full1)).find?
        (fun t2 => t2.recording_id = rid)
      = some (setTransFullText t.id full1 t) := by
    rw [find?_map_of_pres _ (setTransFullText t.id full1)
      (fun x => by simp [setTransFullText_recording_id]), hfind]
    rfl
  have ht1 : setTransFullText t.id full1 t = { t with full_text := some full1 } := by
    unfold setTransFullText
    rw [if_pos rfl]
  have hsegs2 : (db.segments.map (swapSegRow t.id)).map (swapSegRow t.id)
      = db.segments := by
    rw [List.map_map]
    exact List.map_id'' (fun s => swapSegRow_invol t.id s) db.segments
  have hswap2 := swapSpeakers_eq
    { db with
        segments := db.segments.map (swapSegRow t.id),
        transcripts := db.transcripts.map (setTransFullText t.id full1) }
    rid (setTransFullText t.id full1 t) hfind1
  rw [ht1] at hswap2
  have hfind2 :
      ((swapSpeakers
        { db with
            segments := db.segments.map (swapSegRow t.id),
            transcripts := db.transcripts.map (setTransFullText t.id full1) }
        rid).1).transcripts.find? (fun t2 => t2.recording_id = rid)
      = some { t with full_text := some (canonicalRender
          (db.segments.filter (fun s => s.transcript_id = t.id))) } := by
    rw [hswap2]
    show ((db.transcripts.map (setTransFullText t.id full1)).map
        (setTransFullText t.id _)).find? (fun t2 => t2.recording_id = rid) = _
    set full2 := canonicalRender
      (((db.segments.map (swapSegRow t.id)).map (swapSegRow t.id)).filter
        (fun s => s.transcript_id = t.id)) with hfull2
    have hfull2canon : full2 =
        canonicalRender (db.segments.filter (fun s => s.transcript_id = t.id)) := by
      rw [hfull2, hsegs2]
    rw [find?_map_of_pres _ (setTransFullText t.id full2)
      (fun x => by simp [setTransFullText_recording_id]), hfind1, ht1]
    show some (setTransFullText t.id full2 { t with full_text := some full1 }) = _
    unfold setTransFullText
    rw [if_pos rfl]
    show some ({ t with full_text := some full2 } : TranscriptRow) = _
    rw [hfull2canon]
  refine ⟨rfl, rfl, ?_, ?_, hfind2, fun hcanon => ?_⟩
  · rw [List.map_map]
    exact List.map_congr_left (fun s _ => segProj_swapSegRow t.id s)
  · rw [hswap2]
    exact hsegs2
  · rw [hfind2, ← hcanon]

/-- Counterexample for C8 as stated: a mono-path transcript persisted
with segments out of start-time order; after two swaps the labels are
back but the rendered text is the re-sorted rendering, not the original
one. -/
theorem swap_roundtrip_text_cex :
    ((swapSpeakers (swapSpeakers dbCX8 1).1 1).1.transcripts.find?
        (fun t => t.recording_id = 1)).map (fun t => t.full_text)
      ≠ (dbCX8.transcripts.find? (fun t => t.recording_id = 1)).map
          (fun t => t.full_text) := by
  with_unfolding_all decide

/-- Witness for C8 amended: a transcript persisted in start-time order
round-trips exactly. -/
theorem swap_speakers_roundtrip_witness :
    (swapSpeakers dbCX8sorted 1).2 = true ∧
    ((swapSpeakers dbCX8sorted 1).1).recordings = dbCX8sorted.recordings ∧
    ((swapSpeakers dbCX8sorted 1).1).segments.map segProj
      = dbCX8sorted.segments.map segProj ∧
    ((swapSpeakers (swapSpeakers dbCX8sorted 1).1 1).1).segments
      = dbCX8sorted.segments ∧
    ((swapSpeakers (swapSpeakers dbCX8sorted 1).1 1).1).transcripts.find?
        (fun t2 => t2.recording_id = 1)
      = some { id := 1, recording_id := 1,
               full_text := some "[Agent] a\n[Agent] b", language := some "pl" } :=
  have h := swap_speakers_roundtrip dbCX8sorted 1
    { id := 1, recording_id := 1,
      full_text := some "[Agent] a\n[Agent] b", language := some "pl" }
    (by with_unfolding_all decide)
  ⟨h.1, h.2.1, h.2.2.1, h.2.2.2.1,
   h.2.2.2.2.2 (by with_unfolding_all decide)⟩

end Transcriptor
